import Mathlib

/-!
Shallow embedding of `src/index.ts` of the filigrane-ai repository
(the interactive variant, the canonical flow).

Byte buffers are `List Nat` (each entry one byte).  MIME types are the
strings the source uses.  External collaborators (the image re-encoder
`sharp`, the metadata tool `exiftool`, the base64 decoder) are abstract
function parameters.  The interactive answers (menu choices, comments),
the edit-service responses, and the success of fallible filesystem or
metadata operations are finite scripts consumed in program order, so the
review loop of `processOneFile` is structural recursion on the script of
edit responses.
-/

/-- Byte buffers of the program: one `Nat` per byte. -/
abbrev Buffer := List Nat

/-- PROMPT_TEXT constant of `src/index.ts`. -/
def PROMPT_TEXT : String := "Peux tu enlever le filigrane sur cette image stp"

/-- Node `path.extname` restricted to plain filenames (no directory
separators), which is how the program uses it: the substring from the last
dot onward, empty when there is no dot or the only dot starts the name. -/
def extname (s : String) : String :=
  let rev := s.data.reverse
  let tail := rev.takeWhile (fun c => c != '.')
  if tail.length = rev.length then ""
  else if tail.length + 1 = rev.length then ""
  else String.mk ('.' :: tail.reverse)

/-- ASCII lowercase of one character (what `String.prototype.toLowerCase`
does on the extensions this program compares). -/
def asciiLower (c : Char) : Char :=
  if 'A' ≤ c ∧ c ≤ 'Z' then Char.ofNat (c.toNat + 32) else c

/-- ASCII lowercase of a string. -/
def asciiToLower (s : String) : String :=
  String.mk (s.data.map asciiLower)

/-- chooseMimeTypeFromFilename of `src/index.ts`: `.jpg`/`.jpeg`
(case-insensitive) map to `image/jpeg`, anything else to the octet-stream
fallback. -/
def chooseMimeTypeFromFilename (filename : String) : String :=
  let ext := asciiToLower (extname filename)
  if ext = ".jpg" ∨ ext = ".jpeg" then "image/jpeg" else "application/octet-stream"

/-- The 8-byte PNG magic signature 89 50 4E 47 0D 0A 1A 0A. -/
def pngSig : Buffer := [0x89, 0x50, 0x4e, 0x47, 0x0d, 0x0a, 0x1a, 0x0a]

/-- detectMimeTypeFromBuffer of `src/index.ts` (the Format Sniffer):
checks the 8-byte PNG signature, then the 3-byte JPEG start-of-image
marker, else returns the octet-stream fallback.  Out-of-range indexing in
the source is guarded by the length tests, mirrored here by `List.getD`. -/
def detectMimeTypeFromBuffer (buf : Buffer) : String :=
  if 8 ≤ buf.length ∧ buf.getD 0 0 = 0x89 ∧ buf.getD 1 0 = 0x50 ∧
      buf.getD 2 0 = 0x4e ∧ buf.getD 3 0 = 0x47 ∧ buf.getD 4 0 = 0x0d ∧
      buf.getD 5 0 = 0x0a ∧ buf.getD 6 0 = 0x1a ∧ buf.getD 7 0 = 0x0a then
    "image/png"
  else if 3 ≤ buf.length ∧ buf.getD 0 0 = 0xff ∧ buf.getD 1 0 = 0xd8 ∧
      buf.getD 2 0 = 0xff then
    "image/jpeg"
  else
    "application/octet-stream"

/-- Whitespace characters stripped by the JavaScript `String.prototype.trim`
(the ASCII ones, which cover the program's console input). -/
def jsWhitespace (c : Char) : Bool :=
  c = ' ' || c = '\t' || c = '\n' || c = '\r' || c = Char.ofNat 11 || c = Char.ofNat 12

/-- JavaScript `String.prototype.trim`: drop whitespace from both ends. -/
def jsTrim (s : String) : String :=
  String.mk (((s.data.dropWhile jsWhitespace).reverse.dropWhile jsWhitespace).reverse)

/-- promptComment of `src/index.ts`: the inquirer answer (`none` when the
answer field is absent, as `answers.comment ?? ""` coerces `undefined`)
is defaulted to the empty string and trimmed. -/
def promptComment (ans : Option String) : String :=
  jsTrim (ans.getD "")

/-- The `inlineData` object of a response part: both fields optional in
the wire schema. -/
structure InlineData where
  mimeType : Option String
  data : Option String
deriving DecidableEq

/-- One content part of an edit-service response. -/
structure ResponsePart where
  text : Option String
  inlineData : Option InlineData
deriving DecidableEq

/-- The `content` object of a response candidate. -/
structure ResponseContent where
  parts : Option (List ResponsePart)
deriving DecidableEq

/-- One candidate of an edit-service response. -/
structure ResponseCandidate where
  content : Option ResponseContent
deriving DecidableEq

/-- The edit-service response: an optional list of candidates. -/
structure GenResponse where
  candidates : Option (List ResponseCandidate)
deriving DecidableEq

/-- The base64 `data` field of a part's inline payload, when both the
payload and the field are present (`inline && typeof inline.data === "string"`). -/
def partData (p : ResponsePart) : Option String :=
  p.inlineData.bind (fun i => i.data)

/-- The expression `result.candidates?.[0]?.content?.parts ?? []` of
`src/index.ts`: the first candidate's content parts, or the empty list when
any link of the optional chain is absent. -/
def responseParts (r : GenResponse) : List ResponsePart :=
  ((((r.candidates.bind (fun cs => cs.head?)).bind
      (fun c => c.content)).bind (fun c => c.parts)).getD [])

/-- The extraction loop of sendImageAndGetReturnedImage: return the base64
data of the first part carrying an inline payload with a string `data`
field, else nothing. -/
def firstInlineData : List ResponsePart → Option String
  | [] => none
  | p :: ps =>
    match p.inlineData with
    | some i =>
      match i.data with
      | some s => some s
      | none => firstInlineData ps
    | none => firstInlineData ps

/-- sendImageAndGetReturnedImage of `src/index.ts`, response side: parse
the response and decode the first inline payload's base64 data.  The
base64 decoder (`Buffer.from(data, "base64")`) is the abstract parameter
`decode`; the request side only packages the caller's prompt, image and
MIME type and is captured by the edit-call trace of the review loop. -/
def sendImageAndGetReturnedImage (decode : String → Buffer) (r : GenResponse) :
    Option Buffer :=
  (firstInlineData (responseParts r)).map decode

/-- The four menu choices of promptMenu. -/
inductive Choice where
  | accept
  | comment
  | retry
  | skip
deriving DecidableEq

/-- How one job run ends: the operator accepted, the operator skipped, the
model returned no image (early warning return), a file write failed (the
exception propagates out of processOneFile), or the interaction scripts
were exhausted (a model artifact marking an unfinished run). -/
inductive TermReason where
  | accepted
  | skipped
  | noImage
  | writeError
  | outOfScript
deriving DecidableEq

/-- One call made to the edit service: the prompt text, image bytes and
MIME type of the Working Context at that call. -/
structure EditCall where
  prompt : String
  image : Buffer
  mime : String
deriving DecidableEq

/-- The two filesystem paths a job touches: its original input file and
its output file.  `none` means the file is absent. -/
structure FS where
  inputFile : Option Buffer
  outputFile : Option Buffer
deriving DecidableEq

/-- Observable outcome of one job: final filesystem state, the trace of
edit calls in order, how many times the operator menu was shown, how many
metadata-copy warnings were logged, and how the job ended. -/
structure JobResult where
  fs : FS
  calls : List EditCall
  menuPrompts : Nat
  exifWarnings : Nat
  reason : TermReason
deriving DecidableEq

/-- The scripted environment of one job: edit-service responses per call,
menu answers, comment answers (as raw inquirer fields), and the success of
each `writeFile`, `rm` and metadata-copy invocation in program order. -/
structure JobScripts where
  edits : List (Option Buffer)
  choices : List Choice
  comments : List (Option String)
  writeOk : List Bool
  rmOk : List Bool
  exifOk : List Bool

/-- The `while (true)` review loop of processOneFile.  Arguments after the
scripts: the Working Context (image buffer, MIME, prompt) and the
filesystem.  `re` is the JPEG re-encoder (`sharp(...).jpeg(...)`), `ex`
the metadata-copy enrichment of the output file by the original
(`copyAllExifFromTo`); a failed metadata copy is caught and only logs a
warning, a failed write propagates (reason `writeError`), a failed `rm`
in the skip branch is caught and leaves the file in place. -/
def reviewLoopGo (re : Buffer → Buffer) (ex : Buffer → Buffer → Buffer)
    (filename : String) (inputBuffer : Buffer) :
    List (Option Buffer) → List Choice → List (Option String) →
    List Bool → List Bool → List Bool →
    Buffer → String → String → FS → JobResult
  | [], _, _, _, _, _, _, _, _, fs =>
    { fs := fs, calls := [], menuPrompts := 0, exifWarnings := 0, reason := .outOfScript }
  | resp :: edits, choices, comments, writeOk, rmOk, exifOk, wb, wm, prompt, fs =>
    let call : EditCall := { prompt := prompt, image := wb, mime := wm }
    match resp with
    | none =>
      { fs := fs, calls := [call], menuPrompts := 0, exifWarnings := 0, reason := .noImage }
    | some returned =>
      let jpeg := re returned
      if writeOk.headD true then
        let fs1 : FS := { fs with outputFile := some jpeg }
        let fs2 : FS :=
          if exifOk.headD true then { fs1 with outputFile := some (ex inputBuffer jpeg) }
          else fs1
        let warn : Nat := if exifOk.headD true then 0 else 1
        match choices with
        | [] =>
          { fs := fs2, calls := [call], menuPrompts := 0, exifWarnings := warn,
            reason := .outOfScript }
        | choice :: choices =>
          match choice with
          | .accept =>
            { fs := fs2, calls := [call], menuPrompts := 1, exifWarnings := warn,
              reason := .accepted }
          | .comment =>
            match comments with
            | [] =>
              { fs := fs2, calls := [call], menuPrompts := 1, exifWarnings := warn,
                reason := .outOfScript }
            | ans :: comments =>
              let rest := reviewLoopGo re ex filename inputBuffer edits choices comments
                writeOk.tail rmOk exifOk.tail
                returned (detectMimeTypeFromBuffer returned)
                (prompt ++ "\n" ++ promptComment ans) fs2
              { rest with calls := call :: rest.calls,
                          menuPrompts := rest.menuPrompts + 1,
                          exifWarnings := rest.exifWarnings + warn }
          | .retry =>
            let rest := reviewLoopGo re ex filename inputBuffer edits choices comments
              writeOk.tail rmOk exifOk.tail
              inputBuffer (chooseMimeTypeFromFilename filename) PROMPT_TEXT fs2
            { rest with calls := call :: rest.calls,
                        menuPrompts := rest.menuPrompts + 1,
                        exifWarnings := rest.exifWarnings + warn }
          | .skip =>
            let fs3 : FS := if rmOk.headD true then { fs2 with outputFile := none } else fs2
            let fs4 : FS := if rmOk.tail.headD true then { fs3 with inputFile := none } else fs3
            { fs := fs4, calls := [call], menuPrompts := 1, exifWarnings := warn,
              reason := .skipped }
      else
        { fs := fs, calls := [call], menuPrompts := 0, exifWarnings := 0,
          reason := .writeError }

/-- processOneFile of `src/index.ts`: read the input (its bytes are the
parameter `inputBuffer`), initialise the Working Context to the original
bytes, the filename-derived MIME and the base prompt, and run the review
loop. -/
def processOneFile (re : Buffer → Buffer) (ex : Buffer → Buffer → Buffer)
    (filename : String) (inputBuffer : Buffer) (s : JobScripts) : JobResult :=
  reviewLoopGo re ex filename inputBuffer s.edits s.choices s.comments
    s.writeOk s.rmOk s.exifOk
    inputBuffer (chooseMimeTypeFromFilename filename) PROMPT_TEXT
    { inputFile := some inputBuffer, outputFile := none }

/-- Whether a job run ended by an exception escaping processOneFile (the
only uncaught per-job exception of the model is the file write failure). -/
def jobThrows (r : JobResult) : Bool :=
  r.reason = TermReason.writeError

/-- Observable outcome of one whole program run: the process exit code,
whether the fatal credential error was printed by the top-level catch, the
number of `Processed:` lines, of per-file error lines, and of jobs started. -/
structure MainResult where
  exitCode : Nat
  fatalPrinted : Bool
  processed : Nat
  perFileErrors : Nat
  jobsRun : Nat
deriving DecidableEq

/-- main of `src/index.ts` together with its top-level
`main().catch(console.error).finally(...)` harness.  A missing or empty
`GEMINI_API_KEY` (`if (!apiKey)` is true for both) makes main throw before
any job; the top-level catch prints the error and resolves, so the process
exit code is 0 on every path.  With a credential, every inventory entry is
processed in order; a job whose exception escapes processOneFile is caught
by the per-file catch, logged, and the loop continues. -/
def runMain (re : Buffer → Buffer) (ex : Buffer → Buffer → Buffer)
    (apiKey : Option String) (files : List String)
    (inputOf : String → Buffer) (scriptsOf : String → JobScripts) : MainResult :=
  if apiKey.getD "" = "" then
    { exitCode := 0, fatalPrinted := true, processed := 0, perFileErrors := 0, jobsRun := 0 }
  else
    let results := files.map (fun f => processOneFile re ex f (inputOf f) (scriptsOf f))
    { exitCode := 0
      fatalPrinted := false
      processed := (results.filter (fun r => ! jobThrows r)).length
      perFileErrors := (results.filter (fun r => jobThrows r)).length
      jobsRun := files.length }

/-- A job script whose single edit call returns no image, used to
instantiate batch-level statements on concrete runs. -/
def noImageScripts : JobScripts :=
  { edits := [none], choices := [], comments := [],
    writeOk := [], rmOk := [], exifOk := [] }

/-- The empty job script, used to instantiate batch-level statements on
concrete runs. -/
def emptyScripts : JobScripts :=
  { edits := [], choices := [], comments := [],
    writeOk := [], rmOk := [], exifOk := [] }

/-- String inequality used to separate the sniffer's return values. -/
theorem jpeg_ne_png : ("image/jpeg" : String) ≠ "image/png" := by decide

/-- String inequality used to separate the sniffer's return values. -/
theorem octet_ne_png : ("application/octet-stream" : String) ≠ "image/png" := by decide

/-- The sniffer's byte-by-byte PNG test is the same as comparing the first
8 bytes with the signature. -/
theorem png_cond_iff (buf : Buffer) :
    (8 ≤ buf.length ∧ buf.getD 0 0 = 0x89 ∧ buf.getD 1 0 = 0x50 ∧
      buf.getD 2 0 = 0x4e ∧ buf.getD 3 0 = 0x47 ∧ buf.getD 4 0 = 0x0d ∧
      buf.getD 5 0 = 0x0a ∧ buf.getD 6 0 = 0x1a ∧ buf.getD 7 0 = 0x0a)
    ↔ (8 ≤ buf.length ∧ buf.take 8 = pngSig) := by
  rcases buf with _ | ⟨b0, _ | ⟨b1, _ | ⟨b2, _ | ⟨b3, _ | ⟨b4, _ | ⟨b5, _ | ⟨b6, _ | ⟨b7, rest⟩⟩⟩⟩⟩⟩⟩⟩ <;>
    simp [pngSig, List.getD]

/-- The sniffer's byte-by-byte JPEG test is the same as comparing the
first 3 bytes with the start-of-image marker. -/
theorem jpeg_cond_iff (buf : Buffer) :
    (3 ≤ buf.length ∧ buf.getD 0 0 = 0xff ∧ buf.getD 1 0 = 0xd8 ∧
      buf.getD 2 0 = 0xff)
    ↔ (3 ≤ buf.length ∧ buf.take 3 = [0xff, 0xd8, 0xff]) := by
  rcases buf with _ | ⟨b0, _ | ⟨b1, _ | ⟨b2, rest⟩⟩⟩ <;>
    simp [List.getD]

/-- Prefix-based form of the Format Sniffer. -/
theorem detect_eq (buf : Buffer) :
    detectMimeTypeFromBuffer buf =
      if 8 ≤ buf.length ∧ buf.take 8 = pngSig then "image/png"
      else if 3 ≤ buf.length ∧ buf.take 3 = [0xff, 0xd8, 0xff] then "image/jpeg"
      else "application/octet-stream" := by
  unfold detectMimeTypeFromBuffer
  rw [if_congr (png_cond_iff buf) rfl (if_congr (jpeg_cond_iff buf) rfl rfl)]

/-- C9: `detectMimeTypeFromBuffer` returns PNG iff the buffer is at least
8 bytes long and its first 8 bytes are the PNG magic signature; it returns
JPEG whenever the first 3 bytes are FF D8 FF; otherwise (in particular on
every buffer shorter than the needed prefix, and on the empty buffer) it
returns the unknown fallback; and it is total, always returning one of the
three values. -/
theorem C9_classify_correct (buf : Buffer) :
    (detectMimeTypeFromBuffer buf = "image/png" ↔
      8 ≤ buf.length ∧ buf.take 8 = pngSig) ∧
    (3 ≤ buf.length ∧ buf.take 3 = [0xff, 0xd8, 0xff] →
      detectMimeTypeFromBuffer buf = "image/jpeg") ∧
    (¬ (8 ≤ buf.length ∧ buf.take 8 = pngSig) →
      ¬ (3 ≤ buf.length ∧ buf.take 3 = [0xff, 0xd8, 0xff]) →
      detectMimeTypeFromBuffer buf = "application/octet-stream") ∧
    detectMimeTypeFromBuffer [] = "application/octet-stream" ∧
    (detectMimeTypeFromBuffer buf = "image/png" ∨
      detectMimeTypeFromBuffer buf = "image/jpeg" ∨
      detectMimeTypeFromBuffer buf = "application/octet-stream") := by
  refine ⟨?_, ?_, ?_, by decide, ?_⟩
  · rw [detect_eq]
    split_ifs with h1 h2
    · simp [h1]
    · simp [jpeg_ne_png, h1]
    · simp [octet_ne_png, h1]
  · intro h3
    rw [detect_eq]
    split_ifs with h1
    · exfalso
      have ht : buf.take 3 = (buf.take 8).take 3 := by
        rw [List.take_take]
        norm_num
      rw [h1.2] at ht
      rw [h3.2] at ht
      exact absurd ht (by decide)
    · rfl
  · intro h1 h2
    rw [detect_eq, if_neg h1, if_neg h2]
  · rw [detect_eq]
    split_ifs <;> simp

/-- C9 witness: the theorem applied at the PNG signature itself. -/
theorem C9_witness :
    detectMimeTypeFromBuffer pngSig = "image/png" :=
  (C9_classify_correct pngSig).1.mpr (by decide)

/-- Unfolding of the extraction loop on a cons, through `partData`. -/
theorem firstInlineData_cons (p : ResponsePart) (ps : List ResponsePart) :
    firstInlineData (p :: ps) =
      match partData p with
      | some s => some s
      | none => firstInlineData ps := by
  rcases p with ⟨t, _ | ⟨m, _ | s⟩⟩ <;> rfl

/-- Parts without an inline data field are passed over. -/
theorem firstInlineData_append_none (l m : List ResponsePart)
    (h : ∀ q ∈ l, partData q = none) :
    firstInlineData (l ++ m) = firstInlineData m := by
  induction l with
  | nil => rfl
  | cons p ps ih =>
    rw [List.cons_append, firstInlineData_cons, h p (List.mem_cons_self p ps)]
    exact ih fun q hq => h q (List.mem_cons_of_mem p hq)

/-- C8: the Edit Client examines only the first candidate's content parts
in order (appending further candidates does not change the result), and
returns the decoded bytes of the first part carrying an inline payload
with a base64 data field; it returns no image when there is no candidate
list, no candidate, no content, no parts field, or no part with an inline
data field. -/
theorem C8_first_inline_part (decode : String → Buffer) :
    (∀ (c : ResponseCandidate) (rest : List ResponseCandidate),
      sendImageAndGetReturnedImage decode ⟨some (c :: rest)⟩ =
        sendImageAndGetReturnedImage decode ⟨some [c]⟩) ∧
    sendImageAndGetReturnedImage decode ⟨none⟩ = none ∧
    sendImageAndGetReturnedImage decode ⟨some []⟩ = none ∧
    (∀ rest : List ResponseCandidate,
      sendImageAndGetReturnedImage decode ⟨some (⟨none⟩ :: rest)⟩ = none) ∧
    (∀ rest : List ResponseCandidate,
      sendImageAndGetReturnedImage decode ⟨some (⟨some ⟨none⟩⟩ :: rest)⟩ = none) ∧
    (∀ (pre : List ResponsePart) (p : ResponsePart) (ps : List ResponsePart) (s : String),
      (∀ q ∈ pre, partData q = none) → partData p = some s →
      sendImageAndGetReturnedImage decode
        ⟨some [⟨some ⟨some (pre ++ p :: ps)⟩⟩]⟩ = some (decode s)) ∧
    (∀ parts : List ResponsePart, (∀ q ∈ parts, partData q = none) →
      sendImageAndGetReturnedImage decode ⟨some [⟨some ⟨some parts⟩⟩]⟩ = none) := by
  refine ⟨fun c rest => rfl, rfl, rfl, fun rest => rfl, fun rest => rfl, ?_, ?_⟩
  · intro pre p ps s hpre hp
    show (firstInlineData (pre ++ p :: ps)).map decode = some (decode s)
    rw [firstInlineData_append_none pre (p :: ps) hpre, firstInlineData_cons, hp]
    rfl
  · intro parts h
    show (firstInlineData parts).map decode = none
    have hnone : firstInlineData parts = none := by
      have := firstInlineData_append_none parts [] h
      simpa using this
    rw [hnone]
    rfl

/-- C8 witness: a response whose first candidate carries a text part, then
an inline part with data, then another inline part; the first data field
wins and is decoded. -/
theorem C8_witness :
    sendImageAndGetReturnedImage (fun s => [s.length])
      ⟨some [⟨some ⟨some [⟨some "t", none⟩,
        ⟨none, some ⟨none, some "QUJD"⟩⟩,
        ⟨none, some ⟨none, some "RUZH"⟩⟩]⟩⟩]⟩ = some [4] := by
  have h := (C8_first_inline_part (fun s => [s.length])).2.2.2.2.2.1
    [⟨some "t", none⟩] ⟨none, some ⟨none, some "QUJD"⟩⟩
    [⟨none, some ⟨none, some "RUZH"⟩⟩] "QUJD"
    (by decide) (by decide)
  simpa using h

/-- Every loop iteration records the edit call of the current Working
Context first, whatever happens afterwards. -/
theorem reviewLoopGo_calls_head (re : Buffer → Buffer) (ex : Buffer → Buffer → Buffer)
    (filename : String) (inputBuffer : Buffer) (e : Option Buffer)
    (edits : List (Option Buffer)) (choices : List Choice)
    (comments : List (Option String)) (writeOk rmOk exifOk : List Bool)
    (wb : Buffer) (wm prompt : String) (fs : FS) :
    (reviewLoopGo re ex filename inputBuffer (e :: edits) choices comments
        writeOk rmOk exifOk wb wm prompt fs).calls.head? =
      some { prompt := prompt, image := wb, mime := wm } := by
  rcases e with _ | r
  · simp [reviewLoopGo]
  · rcases choices with _ | ⟨c, cs⟩
    · simp only [reviewLoopGo]
      split_ifs <;> simp
    · rcases c <;> rcases comments with _ | ⟨a, as⟩ <;>
        (simp only [reviewLoopGo]; split_ifs <;> simp)

/-- After a comment round, the next edit call carries the previous prompt
with the trimmed comment appended after a newline, the last returned image
and its sniffed MIME type. -/
theorem reviewLoopGo_comment_step (re : Buffer → Buffer) (ex : Buffer → Buffer → Buffer)
    (filename : String) (inputBuffer r : Buffer) (e : Option Buffer)
    (edits : List (Option Buffer)) (choices : List Choice) (ans : Option String)
    (comments : List (Option String)) (writeOk rmOk exifOk : List Bool)
    (wb : Buffer) (wm prompt : String) (fs : FS)
    (hw : writeOk.headD true = true) :
    (reviewLoopGo re ex filename inputBuffer (some r :: e :: edits)
        (Choice.comment :: choices) (ans :: comments) writeOk rmOk exifOk
        wb wm prompt fs).calls.tail.head? =
      some { prompt := prompt ++ "\n" ++ promptComment ans, image := r,
             mime := detectMimeTypeFromBuffer r } := by
  simp only [reviewLoopGo, hw, if_true, List.tail_cons]
  exact reviewLoopGo_calls_head re ex filename inputBuffer e edits choices comments
    writeOk.tail rmOk exifOk.tail r (detectMimeTypeFromBuffer r)
    (prompt ++ "\n" ++ promptComment ans) _

/-- After a retry round, the next edit call carries the base prompt, the
original input bytes and the filename-derived MIME type. -/
theorem reviewLoopGo_retry_step (re : Buffer → Buffer) (ex : Buffer → Buffer → Buffer)
    (filename : String) (inputBuffer r : Buffer) (e : Option Buffer)
    (edits : List (Option Buffer)) (choices : List Choice)
    (comments : List (Option String)) (writeOk rmOk exifOk : List Bool)
    (wb : Buffer) (wm prompt : String) (fs : FS)
    (hw : writeOk.headD true = true) :
    (reviewLoopGo re ex filename inputBuffer (some r :: e :: edits)
        (Choice.retry :: choices) comments writeOk rmOk exifOk
        wb wm prompt fs).calls.tail.head? =
      some { prompt := PROMPT_TEXT, image := inputBuffer,
             mime := chooseMimeTypeFromFilename filename } := by
  simp only [reviewLoopGo, hw, if_true, List.tail_cons]
  exact reviewLoopGo_calls_head re ex filename inputBuffer e edits choices comments
    writeOk.tail rmOk exifOk.tail inputBuffer (chooseMimeTypeFromFilename filename)
    PROMPT_TEXT _

/-- C2: choosing `comment` makes the next edit call carry the previous
prompt with the operator's comment appended after a newline (so comments
accumulate round after round), the last returned image (not the original
input), and the sniffed MIME type of that returned image; in particular,
after the scripted round comment("make it brighter"), the second edit call
sends the base prompt, a newline and "make it brighter", together with the
first call's returned image. -/
theorem C2_comment_context :
    (∀ (re : Buffer → Buffer) (ex : Buffer → Buffer → Buffer)
        (filename : String) (inputBuffer r : Buffer) (e : Option Buffer)
        (edits : List (Option Buffer)) (choices : List Choice) (ans : Option String)
        (comments : List (Option String)) (writeOk rmOk exifOk : List Bool)
        (wb : Buffer) (wm prompt : String) (fs : FS),
      writeOk.headD true = true →
      (reviewLoopGo re ex filename inputBuffer (some r :: e :: edits)
          (Choice.comment :: choices) (ans :: comments) writeOk rmOk exifOk
          wb wm prompt fs).calls.head? =
        some { prompt := prompt, image := wb, mime := wm } ∧
      (reviewLoopGo re ex filename inputBuffer (some r :: e :: edits)
          (Choice.comment :: choices) (ans :: comments) writeOk rmOk exifOk
          wb wm prompt fs).calls.tail.head? =
        some { prompt := prompt ++ "\n" ++ promptComment ans, image := r,
               mime := detectMimeTypeFromBuffer r }) ∧
    (processOneFile (fun b => 0x10 :: b) (fun _ d => d) "photo.jpg" [1, 2]
        { edits := [some [0x89, 0x50, 0x4e, 0x47, 0x0d, 0x0a, 0x1a, 0x0a, 7], some [8]],
          choices := [Choice.comment, Choice.accept],
          comments := [some "make it brighter"],
          writeOk := [], rmOk := [], exifOk := [] }).calls =
      [{ prompt := PROMPT_TEXT, image := [1, 2], mime := "image/jpeg" },
       { prompt := PROMPT_TEXT ++ "\n" ++ "make it brighter",
         image := [0x89, 0x50, 0x4e, 0x47, 0x0d, 0x0a, 0x1a, 0x0a, 7],
         mime := "image/png" }] := by
  constructor
  · intro re ex filename inputBuffer r e edits choices ans comments writeOk rmOk exifOk
      wb wm prompt fs hw
    exact ⟨reviewLoopGo_calls_head re ex filename inputBuffer (some r) (e :: edits)
        (Choice.comment :: choices) (ans :: comments) writeOk rmOk exifOk wb wm prompt fs,
      reviewLoopGo_comment_step re ex filename inputBuffer r e edits choices ans comments
        writeOk rmOk exifOk wb wm prompt fs hw⟩
  · decide

/-- C2 witness: the universal clause applied to a concrete comment round. -/
theorem C2_witness :
    (reviewLoopGo (fun b => 0x10 :: b) (fun _ d => d) "photo.jpg" [1, 2]
        [some [9, 9], some [8]] [Choice.comment, Choice.accept]
        [some "make it brighter"] [] [] []
        [1, 2] "image/jpeg" PROMPT_TEXT
        { inputFile := some [1, 2], outputFile := none }).calls.tail.head? =
      some { prompt := PROMPT_TEXT ++ "\n" ++ promptComment (some "make it brighter"),
             image := [9, 9], mime := detectMimeTypeFromBuffer [9, 9] } :=
  (C2_comment_context.1 (fun b => 0x10 :: b) (fun _ d => d) "photo.jpg" [1, 2] [9, 9]
    (some [8]) [] [Choice.accept] (some "make it brighter") [] [] [] []
    [1, 2] "image/jpeg" PROMPT_TEXT
    { inputFile := some [1, 2], outputFile := none } rfl).2

/-- C3: choosing `retry`, whatever Working Context the preceding comment
rounds built, makes the next edit call carry exactly the base prompt, the
untouched original input bytes, and the MIME type derived from the
filename extension; in the scripted run [comment("more"), retry, accept]
the third edit call equals the first. -/
theorem C3_retry_resets_context :
    (∀ (re : Buffer → Buffer) (ex : Buffer → Buffer → Buffer)
        (filename : String) (inputBuffer r : Buffer) (e : Option Buffer)
        (edits : List (Option Buffer)) (choices : List Choice)
        (comments : List (Option String)) (writeOk rmOk exifOk : List Bool)
        (wb : Buffer) (wm prompt : String) (fs : FS),
      writeOk.headD true = true →
      (reviewLoopGo re ex filename inputBuffer (some r :: e :: edits)
          (Choice.retry :: choices) comments writeOk rmOk exifOk
          wb wm prompt fs).calls.tail.head? =
        some { prompt := PROMPT_TEXT, image := inputBuffer,
               mime := chooseMimeTypeFromFilename filename }) ∧
    (processOneFile (fun b => 0x10 :: b) (fun _ d => d) "photo.jpg" [1, 2]
        { edits := [some [9, 9], some [8, 8], some [7]],
          choices := [Choice.comment, Choice.retry, Choice.accept],
          comments := [some "more"], writeOk := [], rmOk := [], exifOk := [] }).calls =
      [{ prompt := PROMPT_TEXT, image := [1, 2], mime := "image/jpeg" },
       { prompt := PROMPT_TEXT ++ "\n" ++ "more", image := [9, 9],
         mime := "application/octet-stream" },
       { prompt := PROMPT_TEXT, image := [1, 2], mime := "image/jpeg" }] := by
  constructor
  · intro re ex filename inputBuffer r e edits choices comments writeOk rmOk exifOk
      wb wm prompt fs hw
    exact reviewLoopGo_retry_step re ex filename inputBuffer r e edits choices comments
      writeOk rmOk exifOk wb wm prompt fs hw
  · decide

/-- C3 witness: the universal clause applied to a concrete retry round. -/
theorem C3_witness :
    (reviewLoopGo (fun b => 0x10 :: b) (fun _ d => d) "photo.jpg" [1, 2]
        [some [9, 9], some [8]] [Choice.retry, Choice.accept] []
        [] [] [] [9, 9] "application/octet-stream"
        (PROMPT_TEXT ++ "\n" ++ "more")
        { inputFile := some [1, 2], outputFile := none }).calls.tail.head? =
      some { prompt := PROMPT_TEXT, image := [1, 2],
             mime := chooseMimeTypeFromFilename "photo.jpg" } :=
  (C3_retry_resets_context.1 (fun b => 0x10 :: b) (fun _ d => d) "photo.jpg" [1, 2] [9, 9]
    (some [8]) [] [Choice.accept] [] [] [] [] [9, 9] "application/octet-stream"
    (PROMPT_TEXT ++ "\n" ++ "more")
    { inputFile := some [1, 2], outputFile := none } rfl)

/-- C4: when the edit service returns no image, the job logs its warning
and terminates immediately: the filesystem is exactly as before the
iteration (no output written), the operator menu is never shown, and no
further edit call is made; in particular a first-call no-image run ends
with no output file and zero menu prompts. -/
theorem C4_no_image_terminates :
    (∀ (re : Buffer → Buffer) (ex : Buffer → Buffer → Buffer)
        (filename : String) (inputBuffer : Buffer)
        (edits : List (Option Buffer)) (choices : List Choice)
        (comments : List (Option String)) (writeOk rmOk exifOk : List Bool)
        (wb : Buffer) (wm prompt : String) (fs : FS),
      reviewLoopGo re ex filename inputBuffer (none :: edits) choices comments
          writeOk rmOk exifOk wb wm prompt fs =
        { fs := fs, calls := [{ prompt := prompt, image := wb, mime := wm }],
          menuPrompts := 0, exifWarnings := 0, reason := TermReason.noImage }) ∧
    processOneFile (fun b => 0x10 :: b) (fun _ d => d) "photo.jpg" [1, 2]
        { edits := [none], choices := [Choice.accept], comments := [],
          writeOk := [], rmOk := [], exifOk := [] } =
      { fs := { inputFile := some [1, 2], outputFile := none },
        calls := [{ prompt := PROMPT_TEXT, image := [1, 2], mime := "image/jpeg" }],
        menuPrompts := 0, exifWarnings := 0, reason := TermReason.noImage } := by
  exact ⟨fun re ex filename inputBuffer edits choices comments writeOk rmOk exifOk
      wb wm prompt fs => rfl, by decide⟩

/-- C5: when the operator's terminal choice is skip (and the deletes
succeed), the job ends with both the output file and the original input
file absent, after exactly one menu round and one edit call — the loop
does not re-enter generation. -/
theorem C5_skip_deletes :
    (∀ (re : Buffer → Buffer) (ex : Buffer → Buffer → Buffer)
        (filename : String) (inputBuffer r : Buffer)
        (edits : List (Option Buffer)) (choices : List Choice)
        (comments : List (Option String)) (writeOk rmOk exifOk : List Bool)
        (wb : Buffer) (wm prompt : String) (fs : FS),
      writeOk.headD true = true → rmOk.headD true = true →
      rmOk.tail.headD true = true →
      reviewLoopGo re ex filename inputBuffer (some r :: edits)
          (Choice.skip :: choices) comments writeOk rmOk exifOk wb wm prompt fs =
        { fs := { inputFile := none, outputFile := none },
          calls := [{ prompt := prompt, image := wb, mime := wm }],
          menuPrompts := 1,
          exifWarnings := if exifOk.headD true then 0 else 1,
          reason := TermReason.skipped }) ∧
    (processOneFile (fun b => 0x10 :: b) (fun _ d => d) "photo.jpg" [1, 2]
        { edits := [some [9]], choices := [Choice.skip], comments := [],
          writeOk := [], rmOk := [], exifOk := [] }).fs =
      { inputFile := none, outputFile := none } := by
  constructor
  · intro re ex filename inputBuffer r edits choices comments writeOk rmOk exifOk
      wb wm prompt fs hw h1 h2
    simp only [List.headD_eq_head?_getD, List.head?_tail] at hw h1 h2
    simp [reviewLoopGo, hw, h1, h2]
  · decide

/-- C5 witness: the universal clause applied to a concrete skip round. -/
theorem C5_witness :
    reviewLoopGo (fun b => 0x10 :: b) (fun _ d => d) "photo.jpg" [1, 2]
        [some [9]] [Choice.skip] [] [] [] []
        [1, 2] "image/jpeg" PROMPT_TEXT
        { inputFile := some [1, 2], outputFile := none } =
      { fs := { inputFile := none, outputFile := none },
        calls := [{ prompt := PROMPT_TEXT, image := [1, 2], mime := "image/jpeg" }],
        menuPrompts := 1,
        exifWarnings := if ([] : List Bool).headD true then 0 else 1,
        reason := TermReason.skipped } :=
  C5_skip_deletes.1 (fun b => 0x10 :: b) (fun _ d => d) "photo.jpg" [1, 2] [9]
    [] [] [] [] [] [] [1, 2] "image/jpeg" PROMPT_TEXT
    { inputFile := some [1, 2], outputFile := none } rfl rfl rfl

/-- Counting helper: a list splits into the elements failing and the
elements satisfying a boolean predicate. -/
theorem filter_not_add_filter_length {α : Type} (p : α → Bool) (l : List α) :
    (l.filter (fun a => ! p a)).length + (l.filter p).length = l.length := by
  induction l with
  | nil => rfl
  | cons a as ih =>
    by_cases h : p a <;> simp [List.filter_cons, h] <;> omega

/-- C6 counterexample: a job whose two skip-branch deletes both fail still
terminates normally as skipped — no error propagates out of the Review
Loop (the reason is not the propagating write error), and the input file
even remains in place.  The failing deletes are the `rmOk := [false,
false]` script entries. -/
theorem C6_counterexample :
    (processOneFile (fun b => 0x10 :: b) (fun _ d => d) "photo.jpg" [1, 2]
        { edits := [some [9]], choices := [Choice.skip], comments := [],
          writeOk := [], rmOk := [false, false], exifOk := [] }).reason =
      TermReason.skipped ∧
    (processOneFile (fun b => 0x10 :: b) (fun _ d => d) "photo.jpg" [1, 2]
        { edits := [some [9]], choices := [Choice.skip], comments := [],
          writeOk := [], rmOk := [false, false], exifOk := [] }).fs.inputFile =
      some [1, 2] ∧
    ¬ (processOneFile (fun b => 0x10 :: b) (fun _ d => d) "photo.jpg" [1, 2]
        { edits := [some [9]], choices := [Choice.skip], comments := [],
          writeOk := [], rmOk := [false, false], exifOk := [] }).reason =
      TermReason.writeError := by
  refine ⟨by decide, by decide, by decide⟩

/-- C6 (amended): a file write failure is fatal per-Job — the loop stops
at once with the propagating write error, later caught at the Batch
Driver boundary where every job is still accounted for — while a file
delete failure in the skip branch is caught and suppressed inside the
Job, which still ends as skipped. -/
theorem C6_failure_propagation :
    (∀ (re : Buffer → Buffer) (ex : Buffer → Buffer → Buffer)
        (filename : String) (inputBuffer r : Buffer)
        (edits : List (Option Buffer)) (choices : List Choice)
        (comments : List (Option String)) (writeOk rmOk exifOk : List Bool)
        (wb : Buffer) (wm prompt : String) (fs : FS),
      writeOk.headD true = false →
      reviewLoopGo re ex filename inputBuffer (some r :: edits) choices comments
          writeOk rmOk exifOk wb wm prompt fs =
        { fs := fs, calls := [{ prompt := prompt, image := wb, mime := wm }],
          menuPrompts := 0, exifWarnings := 0, reason := TermReason.writeError }) ∧
    (∀ (re : Buffer → Buffer) (ex : Buffer → Buffer → Buffer)
        (filename : String) (inputBuffer r : Buffer)
        (edits : List (Option Buffer)) (choices : List Choice)
        (comments : List (Option String)) (writeOk rmOk exifOk : List Bool)
        (wb : Buffer) (wm prompt : String) (fs : FS),
      writeOk.headD true = true →
      (reviewLoopGo re ex filename inputBuffer (some r :: edits)
          (Choice.skip :: choices) comments writeOk rmOk exifOk
          wb wm prompt fs).reason = TermReason.skipped) ∧
    (∀ (re : Buffer → Buffer) (ex : Buffer → Buffer → Buffer) (key : String)
        (files : List String) (inputOf : String → Buffer)
        (scriptsOf : String → JobScripts),
      ¬ key = "" →
      (runMain re ex (some key) files inputOf scriptsOf).processed +
        (runMain re ex (some key) files inputOf scriptsOf).perFileErrors =
        files.length) := by
  refine ⟨?_, ?_, ?_⟩
  · intro re ex filename inputBuffer r edits choices comments writeOk rmOk exifOk
      wb wm prompt fs hw
    simp only [List.headD_eq_head?_getD] at hw
    simp [reviewLoopGo, hw]
  · intro re ex filename inputBuffer r edits choices comments writeOk rmOk exifOk
      wb wm prompt fs hw
    simp only [List.headD_eq_head?_getD] at hw
    simp [reviewLoopGo, hw]
  · intro re ex key files inputOf scriptsOf hk
    simp only [runMain, Option.getD_some, if_neg hk]
    simpa using filter_not_add_filter_length jobThrows
      (files.map (fun f => processOneFile re ex f (inputOf f) (scriptsOf f)))

/-- C6 witness: the write-failure clause applied to a concrete job whose
first write fails. -/
theorem C6_witness :
    reviewLoopGo (fun b => 0x10 :: b) (fun _ d => d) "photo.jpg" [1, 2]
        [some [9]] [Choice.accept] [] [false] [] []
        [1, 2] "image/jpeg" PROMPT_TEXT
        { inputFile := some [1, 2], outputFile := none } =
      { fs := { inputFile := some [1, 2], outputFile := none },
        calls := [{ prompt := PROMPT_TEXT, image := [1, 2], mime := "image/jpeg" }],
        menuPrompts := 0, exifWarnings := 0, reason := TermReason.writeError } :=
  C6_failure_propagation.1 (fun b => 0x10 :: b) (fun _ d => d) "photo.jpg" [1, 2] [9]
    [] [Choice.accept] [] [false] [] [] [1, 2] "image/jpeg" PROMPT_TEXT
    { inputFile := some [1, 2], outputFile := none } rfl

/-- C7: a metadata-copy failure is logged as a warning and otherwise
ignored — the job's just-written output file still exists, the operator
menu is still shown and the job ends by the operator's choice — and the
Batch Driver always proceeds through the whole inventory whatever the
per-job scripts (metadata failures included). -/
theorem C7_exif_failure_ignored :
    (∀ (re : Buffer → Buffer) (ex : Buffer → Buffer → Buffer)
        (filename : String) (inputBuffer r : Buffer)
        (edits : List (Option Buffer)) (choices : List Choice)
        (comments : List (Option String)) (writeOk rmOk exifOk : List Bool)
        (wb : Buffer) (wm prompt : String) (fs : FS),
      writeOk.headD true = true → exifOk.headD true = false →
      reviewLoopGo re ex filename inputBuffer (some r :: edits)
          (Choice.accept :: choices) comments writeOk rmOk exifOk wb wm prompt fs =
        { fs := { fs with outputFile := some (re r) },
          calls := [{ prompt := prompt, image := wb, mime := wm }],
          menuPrompts := 1, exifWarnings := 1, reason := TermReason.accepted }) ∧
    (∀ (re : Buffer → Buffer) (ex : Buffer → Buffer → Buffer) (key : String)
        (files : List String) (inputOf : String → Buffer)
        (scriptsOf : String → JobScripts),
      ¬ key = "" →
      (runMain re ex (some key) files inputOf scriptsOf).jobsRun = files.length) := by
  constructor
  · intro re ex filename inputBuffer r edits choices comments writeOk rmOk exifOk
      wb wm prompt fs hw he
    simp only [List.headD_eq_head?_getD] at hw he
    simp [reviewLoopGo, hw, he]
  · intro re ex key files inputOf scriptsOf hk
    simp [runMain, if_neg hk]

/-- C7 witness: a concrete job whose metadata copy fails still has its
output file on disk and ends accepted. -/
theorem C7_witness :
    reviewLoopGo (fun b => 0x10 :: b) (fun a d => a ++ d) "photo.jpg" [1, 2]
        [some [9]] [Choice.accept] [] [] [] [false]
        [1, 2] "image/jpeg" PROMPT_TEXT
        { inputFile := some [1, 2], outputFile := none } =
      { fs := { inputFile := some [1, 2], outputFile := some [0x10, 9] },
        calls := [{ prompt := PROMPT_TEXT, image := [1, 2], mime := "image/jpeg" }],
        menuPrompts := 1, exifWarnings := 1, reason := TermReason.accepted } :=
  C7_exif_failure_ignored.1 (fun b => 0x10 :: b) (fun a d => a ++ d) "photo.jpg" [1, 2]
    [9] [] [] [] [] [] [false] [1, 2] "image/jpeg" PROMPT_TEXT
    { inputFile := some [1, 2], outputFile := none } rfl rfl

/-- C1 counterexample: with the credential absent the program prints the
fatal error and runs no job, but the process exit code is 0, not non-zero
— the top-level catch prints and swallows the rejection. -/
theorem C1_counterexample :
    (runMain (fun b => b) (fun _ d => d) none ["a.jpg"] (fun _ => [1])
        (fun _ => emptyScripts)).fatalPrinted = true ∧
    (runMain (fun b => b) (fun _ d => d) none ["a.jpg"] (fun _ => [1])
        (fun _ => emptyScripts)).exitCode = 0 :=
  ⟨rfl, rfl⟩

/-- C1 (amended): a missing — or empty, which `if (!apiKey)` also treats
as absent — credential makes the program print the fatal error and exit
before any job runs, but the exit code is 0 on that path too; with a
credential present the run processes the whole inventory and exits 0,
whatever the per-job scripts, so per-file errors never change the exit
code. -/
theorem C1_main_exit_behavior :
    (∀ (re : Buffer → Buffer) (ex : Buffer → Buffer → Buffer)
        (files : List String) (inputOf : String → Buffer)
        (scriptsOf : String → JobScripts),
      runMain re ex none files inputOf scriptsOf =
        { exitCode := 0, fatalPrinted := true, processed := 0,
          perFileErrors := 0, jobsRun := 0 }) ∧
    (∀ (re : Buffer → Buffer) (ex : Buffer → Buffer → Buffer)
        (files : List String) (inputOf : String → Buffer)
        (scriptsOf : String → JobScripts),
      (runMain re ex (some "") files inputOf scriptsOf).fatalPrinted = true ∧
      (runMain re ex (some "") files inputOf scriptsOf).jobsRun = 0) ∧
    (∀ (re : Buffer → Buffer) (ex : Buffer → Buffer → Buffer) (key : String)
        (files : List String) (inputOf : String → Buffer)
        (scriptsOf : String → JobScripts),
      ¬ key = "" →
      (runMain re ex (some key) files inputOf scriptsOf).exitCode = 0 ∧
      (runMain re ex (some key) files inputOf scriptsOf).fatalPrinted = false ∧
      (runMain re ex (some key) files inputOf scriptsOf).jobsRun = files.length) := by
  refine ⟨fun re ex files inputOf scriptsOf => rfl,
    fun re ex files inputOf scriptsOf => ⟨rfl, rfl⟩, ?_⟩
  intro re ex key files inputOf scriptsOf hk
  refine ⟨?_, ?_, ?_⟩ <;> simp [runMain, if_neg hk]

/-- C1 witness: a two-file inventory with a valid key exits 0 with both
jobs run, even though both jobs end early with no image. -/
theorem C1_witness :
    (runMain (fun b => b) (fun _ d => d) (some "k") ["a.jpg", "b.jpg"] (fun _ => [1])
        (fun _ => noImageScripts)).exitCode = 0 ∧
    (runMain (fun b => b) (fun _ d => d) (some "k") ["a.jpg", "b.jpg"] (fun _ => [1])
        (fun _ => noImageScripts)).jobsRun = 2 :=
  ⟨(C1_main_exit_behavior.2.2 (fun b => b) (fun _ d => d) "k" ["a.jpg", "b.jpg"]
      (fun _ => [1]) (fun _ => noImageScripts) (by decide)).1,
   (C1_main_exit_behavior.2.2 (fun b => b) (fun _ d => d) "k" ["a.jpg", "b.jpg"]
      (fun _ => [1]) (fun _ => noImageScripts) (by decide)).2.2⟩

/-- The first element surviving a dropWhile fails the predicate. -/
theorem head_dropWhile_not (p : Char → Bool) :
    ∀ (l : List Char) (c : Char), (l.dropWhile p).head? = some c → p c = false := by
  intro l
  induction l with
  | nil => intro c h; simp [List.dropWhile] at h
  | cons a as ih =>
    intro c h
    rw [List.dropWhile_cons] at h
    by_cases ha : p a
    · rw [if_pos ha] at h
      exact ih c h
    · rw [if_neg ha] at h
      simp at h
      exact Bool.eq_false_iff.mpr (fun hc => ha (h ▸ hc))

/-- The last character of a trimmed string is not whitespace. -/
theorem jsTrim_getLast_not_ws (s : String) (c : Char)
    (h : (jsTrim s).data.getLast? = some c) : jsWhitespace c = false := by
  have h2 : ((s.data.dropWhile jsWhitespace).reverse.dropWhile jsWhitespace).head? =
      some c := by
    rw [← List.getLast?_reverse]
    exact h
  exact head_dropWhile_not jsWhitespace _ c h2

/-- The first character of a trimmed string is not whitespace. -/
theorem jsTrim_head_not_ws (s : String) (c : Char)
    (h : (jsTrim s).data.head? = some c) : jsWhitespace c = false := by
  set A := s.data.dropWhile jsWhitespace with hA
  set X := A.reverse.dropWhile jsWhitespace with hX
  have hsplit : A.reverse.takeWhile jsWhitespace ++ X = A.reverse := by
    rw [hX]
    exact List.takeWhile_append_dropWhile jsWhitespace A.reverse
  have hAeq : A = X.reverse ++ (A.reverse.takeWhile jsWhitespace).reverse := by
    have h1 := congrArg List.reverse hsplit
    rw [List.reverse_append, List.reverse_reverse] at h1
    exact h1.symm
  have hdata : (jsTrim s).data = X.reverse := rfl
  rw [hdata] at h
  rcases hXr : X.reverse with _ | ⟨d, t⟩
  · rw [hXr] at h
    cases h
  · rw [hXr] at h
    simp at h
    have hhead : A.head? = some c := by
      rw [hAeq, hXr, h]
      simp
    exact head_dropWhile_not jsWhitespace s.data c hhead

/-- C10: the operator's comment answer is coerced from a missing answer to
the empty string and trimmed of surrounding whitespace — the trimmed text
never starts or ends with a whitespace character and may be empty — and
exactly that trimmed text is what the comment round appends to the prompt
after the newline separator. -/
theorem C10_comment_trimmed :
    promptComment none = "" ∧
    promptComment (some "   ") = "" ∧
    promptComment (some " make it brighter ") = "make it brighter" ∧
    (∀ (ans : Option String) (c : Char),
      ((promptComment ans).data.head? = some c → jsWhitespace c = false) ∧
      ((promptComment ans).data.getLast? = some c → jsWhitespace c = false)) ∧
    (∀ (re : Buffer → Buffer) (ex : Buffer → Buffer → Buffer)
        (filename : String) (inputBuffer r : Buffer) (e : Option Buffer)
        (edits : List (Option Buffer)) (choices : List Choice) (ans : Option String)
        (comments : List (Option String)) (writeOk rmOk exifOk : List Bool)
        (wb : Buffer) (wm prompt : String) (fs : FS),
      writeOk.headD true = true →
      (reviewLoopGo re ex filename inputBuffer (some r :: e :: edits)
          (Choice.comment :: choices) (ans :: comments) writeOk rmOk exifOk
          wb wm prompt fs).calls.tail.head? =
        some { prompt := prompt ++ "\n" ++ promptComment ans, image := r,
               mime := detectMimeTypeFromBuffer r }) := by
  refine ⟨by decide, by decide, by decide, ?_, ?_⟩
  · intro ans c
    exact ⟨jsTrim_head_not_ws (ans.getD "") c, jsTrim_getLast_not_ws (ans.getD "") c⟩
  · intro re ex filename inputBuffer r e edits choices ans comments writeOk rmOk exifOk
      wb wm prompt fs hw
    exact reviewLoopGo_comment_step re ex filename inputBuffer r e edits choices ans
      comments writeOk rmOk exifOk wb wm prompt fs hw

/-- C10 witness: a whitespace-wrapped comment is appended trimmed on a
concrete comment round, and a non-whitespace character is certified
non-whitespace through the head clause. -/
theorem C10_witness :
    jsWhitespace 'x' = false ∧
    (reviewLoopGo (fun b => b) (fun _ d => d) "pic.jpeg" [3]
        [some [4], some [5]] [Choice.comment, Choice.accept] [some "  crop it  "]
        [] [] [] [3] "image/jpeg" PROMPT_TEXT
        { inputFile := some [3], outputFile := none }).calls.tail.head? =
      some { prompt := PROMPT_TEXT ++ "\n" ++ promptComment (some "  crop it  "),
             image := [4], mime := detectMimeTypeFromBuffer [4] } :=
  ⟨(C10_comment_trimmed.2.2.2.1 (some " x ") 'x').1 (by decide),
   C10_comment_trimmed.2.2.2.2 (fun b => b) (fun _ d => d) "pic.jpeg" [3] [4]
     (some [5]) [] [Choice.accept] (some "  crop it  ") [] [] [] [] [3] "image/jpeg"
     PROMPT_TEXT { inputFile := some [3], outputFile := none } rfl⟩
